import Mathlib

/-!
Verification of the capture-trigger core of `screen_capture_app.py`
(repository Ryo22/ScreenshotApp).

The Python source is shallowly embedded: the global `AppState` becomes a
Lean structure, each core function becomes a pure Lean function on that
structure, and every interaction with the outside world (the OS capture
call, the file system, the clipboard, the interactive region-selection
subprocess) is passed in as an explicit oracle argument describing the
outcome the external collaborator would produce.
-/

namespace ScreenshotApp

/-- A PIL image: dimensions plus a row-major list of RGB samples
(each channel a byte value `0..255`). -/
structure PILImage where
  width : Nat
  height : Nat
  pixels : List (Nat × Nat × Nat)
deriving DecidableEq

/-- A PIL image is well formed when its pixel buffer matches its declared
dimensions, every channel sample is a byte, and both dimensions are
positive (as holds for every image a capture backend can return). -/
def WellFormed (img : PILImage) : Prop :=
  img.pixels.length = img.width * img.height ∧
  (∀ p ∈ img.pixels, p.1 < 256 ∧ p.2.1 < 256 ∧ p.2.2 < 256) ∧
  0 < img.width ∧ 0 < img.height

instance (img : PILImage) : Decidable (WellFormed img) := by
  unfold WellFormed; infer_instance

/-- Absolute difference of two byte values. -/
def absDiff (a b : Nat) : Nat := max a b - min a b

/-- `ImageChops.difference`: per-channel absolute difference of two
equally-sized images. -/
def difference (img1 img2 : PILImage) : PILImage :=
  { width := img1.width
    height := img1.height
    pixels := List.zipWith
      (fun p q => (absDiff p.1 q.1, absDiff p.2.1 q.2.1, absDiff p.2.2 q.2.2))
      img1.pixels img2.pixels }

/-- `Image.histogram()` of an RGB image: 768 bins, bins `0..255` count the
first (red) channel, `256..511` the green channel, `512..767` the blue
channel. -/
def histogram (img : PILImage) (i : Nat) : Nat :=
  if i < 256 then (img.pixels.filter (fun p => p.1 == i)).length
  else if i < 512 then (img.pixels.filter (fun p => p.2.1 == i - 256)).length
  else if i < 768 then (img.pixels.filter (fun p => p.2.2 == i - 512)).length
  else 0

/-- `DIFF_THRESHOLD = 0.5` from the source. -/
def DIFF_THRESHOLD : ℚ := 0.5

/-- `sum(histogram[i] for i in range(1, 256))` from `images_different`:
the histogram bins `1..255`, i.e. the non-zero bins of the first band. -/
def nonZeroCount (img : PILImage) : Nat :=
  ((List.range' 1 255).map (fun i => histogram img i)).sum

/-- `images_different` from the source: size mismatch means changed;
otherwise the bins `1..255` of the difference histogram are summed and
normalized by `width*height*3`, changed when the percentage strictly
exceeds `DIFF_THRESHOLD`. -/
def images_different (img1 img2 : PILImage) : Bool :=
  if img1.width ≠ img2.width ∨ img1.height ≠ img2.height then true
  else
    let diff := difference img1 img2
    let non_zero := nonZeroCount diff
    decide (((non_zero : ℚ) / ((img1.width : ℚ) * (img1.height : ℚ) * 3)) * 100
      > DIFF_THRESHOLD)

/-- Modelled from the spec wording of claim C1 (not from the source): the
count of non-zero difference samples summed across all three color
channels. -/
def specNonZeroSamples (img : PILImage) : Nat :=
  (img.pixels.map (fun p =>
    (if p.1 ≠ 0 then 1 else 0) + (if p.2.1 ≠ 0 then 1 else 0) +
      (if p.2.2 ≠ 0 then 1 else 0))).sum

/-- Number of pixels whose first (red) channel is non-zero — the quantity
`images_different` actually measures. -/
def redNonZeroCount (img : PILImage) : Nat :=
  (img.pixels.filter (fun p => p.1 != 0)).length

/-!
## Session state and persistence
-/

/-- The global `AppState` of the source (threads excluded; the polling
loop is modelled separately as a transition function). Timestamps and the
tunables are rationals, the capture counter a Python `int` (ℤ). -/
structure AppState where
  capture_mode : String
  target_window_id : Option Nat
  target_window_name : String
  target_owner_name : String
  region : Option (Int × Int × Int × Int)
  retina_scale : Nat
  save_dir : String
  save_mode : String
  is_running : Bool
  capture_count : Int
  mode : String
  last_image : Option PILImage
  change_detected_time : Option ℚ
  status : String
  settling_time : ℚ
  polling_interval : ℚ
deriving DecidableEq

/-- The class-level defaults of `AppState` in the source. -/
def initialState : AppState :=
  { capture_mode := "window"
    target_window_id := none
    target_window_name := ""
    target_owner_name := ""
    region := none
    retina_scale := 2
    save_dir := "~/Desktop/screenshots"
    save_mode := "folder"
    is_running := false
    capture_count := 0
    mode := "manual"
    last_image := none
    change_detected_time := none
    status := "停止中"
    settling_time := 0.5
    polling_interval := 0.2 }

/-- Zero-padding of a natural number to at least `k` digits. -/
def padZeros (k : Nat) (n : Nat) : String :=
  let d := toString n
  if d.length < k then String.mk (List.replicate (k - d.length) '0') ++ d else d

/-- Python's format spec `:04d`: zero-fill to total width 4, the sign
counting towards the width. -/
def pad4 (n : Int) : String :=
  if n < 0 then "-" ++ padZeros 3 (-n).toNat else padZeros 4 n.toNat

/-- Truthiness of `state.target_window_id` (`None` and `0` are falsy). -/
def windowTargetSet (s : AppState) : Bool :=
  match s.target_window_id with
  | some i => i != 0
  | none => false

/-- Truthiness of `state.region` (`None` falsy, a 4-tuple truthy). -/
def regionSet (s : AppState) : Bool := s.region.isSome

/-- Which writes `save_image` performed, and the filename it used. -/
structure SaveEffects where
  filename : String
  folderAttempted : Bool
  folderWritten : Bool
  clipboardAttempted : Bool
  clipboardWritten : Bool
deriving DecidableEq

/-- `save_image` from the source. The outcomes of the two external writes
are oracle arguments: `folderOk` tells whether `image.save(filepath)`
succeeds (when it raises, the exception is caught by the surrounding
`try`, skipping the remaining steps — in particular the clipboard write
and the status update), `clipboardOk` the boolean result of
`copy_to_clipboard` (which catches its own exceptions). The counter is
incremented before anything else. -/
def save_image (folderOk clipboardOk : Bool) (_image : PILImage) (s : AppState) :
    AppState × SaveEffects :=
  let count := s.capture_count + 1
  let filename := "slide_" ++ pad4 count ++ ".png"
  let s1 := { s with capture_count := count }
  let doFolder := s.save_mode == "folder" || s.save_mode == "both"
  let doClip := s.save_mode == "clipboard" || s.save_mode == "both"
  if doFolder && !folderOk then
    (s1, { filename := filename, folderAttempted := true, folderWritten := false
           clipboardAttempted := false, clipboardWritten := false })
  else
    let parts := (if doFolder then ["📁 " ++ filename] else []) ++
      (if doClip then [if clipboardOk then "📋 コピー済" else "❌ コピー失敗"] else [])
    let status :=
      if !parts.isEmpty then "✓ " ++ String.intercalate " / " parts
      else "✓ " ++ filename
    ({ s1 with status := status },
     { filename := filename, folderAttempted := doFolder, folderWritten := doFolder
       clipboardAttempted := doClip, clipboardWritten := doClip && clipboardOk })

/-!
## Counter seeding from the save directory
-/

/-- Strip leading and trailing whitespace (what Python `int(·)` does
before parsing). -/
def trimChars (cs : List Char) : List Char :=
  ((cs.dropWhile Char.isWhitespace).reverse.dropWhile Char.isWhitespace).reverse

/-- A non-empty all-digit token, read in base 10. -/
def parseDigits (cs : List Char) : Option Nat :=
  if cs ≠ [] ∧ cs.all Char.isDigit then
    some (cs.foldl (fun acc c => acc * 10 + (c.toNat - 48)) 0)
  else none

/-- Python `int(·)` as used on `f.stem.split("_")[1]`: strip whitespace,
then an optional sign followed by at least one decimal digit. -/
def pythonIntChars (cs0 : List Char) : Option Int :=
  match trimChars cs0 with
  | '-' :: rest => (parseDigits rest).map (fun n => -(n : Int))
  | '+' :: rest => (parseDigits rest).map (fun n => (n : Int))
  | cs => (parseDigits cs).map (fun n => (n : Int))

/-- Python `str.split(sep)` for a one-character separator (`"_"`):
splitting the empty string yields one empty part. -/
def splitOnChar (sep : Char) : List Char → List (List Char)
  | [] => [[]]
  | c :: rest =>
    let r := splitOnChar sep rest
    if c = sep then [] :: r
    else
      match r with
      | h :: t => (c :: h) :: t
      | [] => [[c]]

/-- Whether a file name matches the glob pattern `slide_*.png`.
(No string shorter than 10 characters can both start with `slide_` and
end with `.png`, so the two affix tests characterize the pattern.) -/
def matchesSlide (name : String) : Bool :=
  "slide_".toList.isPrefixOf name.toList && ".png".toList.isSuffixOf name.toList

/-- `Path.stem` of a name that ends in `.png`: drop the 4-character
suffix (the last dot of such a name is the one opening `.png`). -/
def stemChars (cs : List Char) : List Char := cs.take (cs.length - 4)

/-- The number parsed out of one globbed file:
`int(f.stem.split("_")[1])`, `none` when either the index access or the
parse raises (both are swallowed by the bare `except`). -/
def slideNumberOf (name : String) : Option Int :=
  match splitOnChar '_' (stemChars name.toList) with
  | _ :: second :: _ => pythonIntChars second
  | _ => none

/-- `init_capture_count`: reset the counter to 0, then — when the save
directory exists — fold `max` over every parseable `slide_*.png` entry.
`dirExists` and the directory listing `files` are oracle inputs. -/
def init_capture_count (dirExists : Bool) (files : List String) (s : AppState) :
    AppState :=
  if !dirExists then { s with capture_count := 0 }
  else
    let seed := (files.filter matchesSlide).foldl
      (fun acc name =>
        match slideNumberOf name with
        | some num => max acc num
        | none => acc) 0
    { s with capture_count := seed }

/-!
## Capture operations
-/

/-- `do_capture`: dispatch on the capture mode and the configured target;
`oracle` is the image the OS capture backend would return if invoked. -/
def do_capture (oracle : Option PILImage) (s : AppState) : Option PILImage :=
  if s.capture_mode == "window" && windowTargetSet s then oracle
  else if s.capture_mode == "region" && regionSet s then oracle
  else none

/-- `manual_capture` from the source: guard on the running flag and on the
target of the current capture mode (the scheduler mode is not consulted),
then capture and persist. -/
def manual_capture (oracle : Option PILImage) (folderOk clipboardOk : Bool)
    (s : AppState) : AppState × Bool :=
  if !s.is_running then ({ s with status := "❌ 開始してください" }, false)
  else if s.capture_mode == "window" && !windowTargetSet s then
    ({ s with status := "❌ ウィンドウ未選択" }, false)
  else if s.capture_mode == "region" && !regionSet s then
    ({ s with status := "❌ 領域未設定" }, false)
  else
    match do_capture oracle s with
    | some image => ((save_image folderOk clipboardOk image s).1, true)
    | none => ({ s with status := "❌ キャプチャ失敗" }, false)

/-- Result of `start_capture`: a normal return, or an uncaught exception
(raised when `target_desc` reads `state.region[2]` with no region set —
reachable only when the capture mode is neither `window` nor `region`)
carrying the state as mutated up to that point. -/
inductive StartOutcome where
  | ok (s : AppState) (result : Bool)
  | exn (s : AppState)
deriving DecidableEq

/-- `start_capture` from the source: reject when the target of the
current capture mode is absent; otherwise set the running flag, then
branch on the scheduler mode (the auto branch clears the last frame and
the pending change timestamp; thread spawning and `mkdir` are external
effects outside the state). -/
def start_capture (s : AppState) : StartOutcome :=
  if s.capture_mode == "window" && !windowTargetSet s then
    .ok { s with status := "❌ ウィンドウを選択してください" } false
  else if s.capture_mode == "region" && !regionSet s then
    .ok { s with status := "❌ 領域を選択してください" } false
  else
    let s1 := { s with is_running := true }
    if s1.capture_mode != "window" && s1.region.isNone then .exn s1
    else if s1.mode == "manual" then
      .ok { s1 with status := "🖱 Cmd+Ctrl+S で撮影" } true
    else
      .ok { s1 with last_image := none, change_detected_time := none
                    status := "🔄 監視中" } true

/-- `stop_capture` from the source. -/
def stop_capture (s : AppState) : AppState :=
  { s with is_running := false, status := "停止中" }

/-!
## Control-surface endpoints
-/

/-- `/api/capture_mode`: guarded by the running flag, no value validation. -/
def api_capture_mode (m : String) (s : AppState) : AppState :=
  if s.is_running then s else { s with capture_mode := m }

/-- `/api/mode`: guarded by the running flag, no value validation. -/
def api_mode (m : String) (s : AppState) : AppState :=
  if s.is_running then s else { s with mode := m }

/-- `/api/save_mode`: guarded by the running flag and validated against
the three legal values. -/
def api_save_mode (m : String) (s : AppState) : AppState :=
  if s.is_running then s
  else if m == "folder" || m == "clipboard" || m == "both" then
    { s with save_mode := m }
  else s

/-- `/api/reset`: unconditionally zero the counter. -/
def api_reset (s : AppState) : AppState := { s with capture_count := 0 }

/-- `interactive_select_region` from the source (called by
`/api/select_region` with no running-flag guard). The outcome of the
external `screencapture -i -s` subprocess is an oracle: `success` tells
whether it produced a non-empty file of dimensions `capW × capH`;
`positions` is the mouse-position trace the monitor thread collected.
On success the region, the capture mode and the status are overwritten. -/
def interactive_select_region (success : Bool) (capW capH : Nat)
    (positions : List (Int × Int)) (s : AppState) : AppState × Bool :=
  if success then
    let scale := s.retina_scale
    let w := capW / scale
    let h := capH / scale
    let region : Int × Int × Int × Int :=
      match positions.getLast? with
      | some (lastX, lastY) =>
        if positions.length ≥ 2 then
          (max 0 (lastX - (w : Int)), max 0 (lastY - (h : Int)), (w : Int), (h : Int))
        else (100, 100, (w : Int), (h : Int))
      | none => (100, 100, (w : Int), (h : Int))
    ({ s with region := some region
              capture_mode := "region"
              status := "領域: " ++ toString region.1 ++ "," ++ toString region.2.1
                ++ " " ++ toString w ++ "x" ++ toString h }, true)
  else (s, false)

/-!
## The auto-mode polling loop
-/

/-- One iteration of the body of `auto_monitor_loop`, at wall-clock time
`now`: capture (`oracle` is what the backend would return), compare with
the stored last frame, record or act on the pending change timestamp
(`0.0` is falsy in Python, hence the `t ≠ 0` test), and store the frame.
Returns the new state and whether this iteration called `save_image`. -/
def monitorStep (folderOk clipboardOk : Bool) (now : ℚ) (oracle : Option PILImage)
    (s : AppState) : AppState × Bool :=
  match do_capture oracle s with
  | none => (s, false)
  | some current =>
    match s.last_image with
    | none => ({ s with last_image := some current }, false)
    | some last =>
      if images_different last current then
        ({ s with last_image := some current
                  change_detected_time := some now
                  status := "🔍 変化検知..." }, false)
      else
        match s.change_detected_time with
        | some t =>
          if t ≠ 0 ∧ now - t ≥ s.settling_time then
            ({ (save_image folderOk clipboardOk current s).1 with
                last_image := some current
                change_detected_time := none }, true)
          else ({ s with last_image := some current }, false)
        | none => ({ s with last_image := some current }, false)

/-- Iterated polling: each list element is one loop iteration (its time
and its capture outcome); the loop condition
`state.is_running and state.mode == "auto"` is re-checked before every
iteration. Returns the final state and the number of saves performed. -/
def monitorRun (folderOk clipboardOk : Bool) :
    List (ℚ × Option PILImage) → AppState → AppState × Nat
  | [], s => (s, 0)
  | (now, oracle) :: rest, s =>
    if s.is_running && s.mode == "auto" then
      let step := monitorStep folderOk clipboardOk now oracle s
      let next := monitorRun folderOk clipboardOk rest step.1
      (next.1, (if step.2 then 1 else 0) + next.2)
    else (s, 0)

/-!
## Derived definitions and concrete fixtures
-/

/-- A session state whose configured target is live: the capture mode
points at a set target, so `do_capture` consults the backend. -/
def targetLive (s : AppState) : Prop :=
  (s.capture_mode = "window" ∧ windowTargetSet s = true) ∨
  (s.capture_mode = "region" ∧ regionSet s = true)

instance (s : AppState) : Decidable (targetLive s) := by
  unfold targetLive; infer_instance

/-- The seeding fold step of `init_capture_count`. -/
def seedStep (acc : Int) (name : String) : Int :=
  match slideNumberOf name with
  | some num => max acc num
  | none => acc

/-- A 1×1 all-black frame. -/
def tinyImage : PILImage := ⟨1, 1, [(0, 0, 0)]⟩

/-- A 1×1 frame differing from `greenOnly1` in the green channel only. -/
def greenOnly2 : PILImage := ⟨1, 1, [(10, 200, 10)]⟩

/-- A 1×1 grey frame. -/
def greenOnly1 : PILImage := ⟨1, 1, [(10, 10, 10)]⟩

/-- A running manual-mode session with a window target: the `Armed`
state of the spec. -/
def armedState : AppState :=
  { initialState with is_running := true, target_window_id := some 5 }

/-- A running auto-mode session with a window target: the `Polling`
state of the spec. -/
def autoRunningState : AppState := { armedState with mode := "auto" }

/-- `autoRunningState` mid-loop: a stored last frame and a pending
change observed at time 1. -/
def autoLoopState : AppState :=
  { autoRunningState with last_image := some tinyImage
                          change_detected_time := some 1 }

/-- A running session with no target configured. -/
def runningState : AppState := { initialState with is_running := true }

/-- An idle session whose save mode is `both`. -/
def bothModeState : AppState := { initialState with save_mode := "both" }

/-- An idle session that has already persisted five captures. -/
def countFiveState : AppState := { initialState with capture_count := 5 }

/-- A directory listing with one parseable slide, one foreign file and
one unparseable slide. -/
def demoFiles : List String := ["slide_0007.png", "notes.txt", "slide_abc.png"]

/-!
## Helper lemmas: histogram bins versus channel counts
-/

/-- Filtering a cons by a projection test, counted. -/
lemma length_filter_cons_proj {α : Type} (f : α → Nat) (a : α) (l : List α) (i : Nat) :
    ((a :: l).filter (fun b => f b == i)).length
      = (if f a = i then 1 else 0) + (l.filter (fun b => f b == i)).length := by
  by_cases h : f a = i <;> simp [List.filter_cons, h] <;> omega

/-- Sums of pointwise added maps split. -/
lemma sum_map_add_nat {α : Type} (L : List α) (f g : α → Nat) :
    (L.map (fun a => f a + g a)).sum = (L.map f).sum + (L.map g).sum := by
  induction L with
  | nil => simp
  | cons a L ih => simp [ih]; omega

/-- An indicator sum over a list that misses `x` vanishes. -/
lemma sum_indicator_of_notMem (L : List Nat) (x : Nat) (hx : x ∉ L) :
    (L.map (fun i => if x = i then 1 else 0)).sum = 0 := by
  induction L with
  | nil => simp
  | cons a L ih =>
    simp only [List.mem_cons, not_or] at hx
    simp [hx.1, ih hx.2]

/-- An indicator sum over a duplicate-free list counts membership. -/
lemma sum_indicator_nodup (L : List Nat) (x : Nat) (h : L.Nodup) :
    (L.map (fun i => if x = i then 1 else 0)).sum = if x ∈ L then 1 else 0 := by
  induction L with
  | nil => simp
  | cons a L ih =>
    rcases List.nodup_cons.mp h with ⟨ha, hL⟩
    by_cases hxa : x = a
    · subst hxa
      simp [sum_indicator_of_notMem L x ha]
    · simp [hxa, ih hL, List.mem_cons]

/-- Summing the per-value counts of a byte-valued projection over the
bins `1..255` counts exactly the elements whose projection is non-zero. -/
lemma sum_bins_eq_count_ne_zero {α : Type} (f : α → Nat) (l : List α)
    (hl : ∀ a ∈ l, f a < 256) :
    ((List.range' 1 255).map (fun i => (l.filter (fun b => f b == i)).length)).sum
      = (l.filter (fun b => f b != 0)).length := by
  induction l with
  | nil =>
    have hmap : (List.range' 1 255).map
          (fun i => (List.filter (fun b => f b == i) ([] : List α)).length)
        = (List.range' 1 255).map (fun _ => 0) :=
      List.map_congr_left (fun i _ => by simp)
    rw [hmap]
    simp only [List.map_const', List.sum_replicate, smul_zero, List.filter_nil,
      List.length_nil]
  | cons a l ih =>
    have ha : f a < 256 := hl a (List.mem_cons_self _ _)
    have hrest : ∀ b ∈ l, f b < 256 := fun b hb => hl b (List.mem_cons_of_mem _ hb)
    have h1 : (List.range' 1 255).map
          (fun i => ((a :: l).filter (fun b => f b == i)).length)
        = (List.range' 1 255).map
          (fun i => (if f a = i then 1 else 0) + (l.filter (fun b => f b == i)).length) :=
      List.map_congr_left (fun i _ => length_filter_cons_proj f a l i)
    rw [h1, sum_map_add_nat, sum_indicator_nodup _ _ (List.nodup_range' _ _), ih hrest]
    have hmem : f a ∈ List.range' 1 255 ↔ f a ≠ 0 := by
      rw [List.mem_range'_1]; omega
    by_cases hz : f a = 0
    · have : f a ∉ List.range' 1 255 := fun hc => (hmem.mp hc) hz
      simp [List.filter_cons, hz, this]
    · have : f a ∈ List.range' 1 255 := hmem.mpr hz
      simp [List.filter_cons, hz, this]
      omega

/-- Every member of a `zipWith` comes from a pair of members. -/
lemma of_mem_zipWith {α β γ : Type} {f : α → β → γ} {l1 : List α} {l2 : List β}
    {c : γ} (h : c ∈ List.zipWith f l1 l2) :
    ∃ a b, a ∈ l1 ∧ b ∈ l2 ∧ c = f a b := by
  induction l1 generalizing l2 with
  | nil => simp at h
  | cons a l1 ih =>
    cases l2 with
    | nil => simp at h
    | cons b l2 =>
      rw [List.zipWith_cons_cons] at h
      rcases List.mem_cons.mp h with rfl | h'
      · exact ⟨a, b, List.mem_cons_self _ _, List.mem_cons_self _ _, rfl⟩
      · obtain ⟨x, y, hx, hy, rfl⟩ := ih h'
        exact ⟨x, y, List.mem_cons_of_mem _ hx, List.mem_cons_of_mem _ hy, rfl⟩

/-- The channels of a difference image of two byte-valued images are
byte-valued. -/
lemma difference_channels_lt (img1 img2 : PILImage)
    (h1 : ∀ p ∈ img1.pixels, p.1 < 256 ∧ p.2.1 < 256 ∧ p.2.2 < 256)
    (h2 : ∀ p ∈ img2.pixels, p.1 < 256 ∧ p.2.1 < 256 ∧ p.2.2 < 256) :
    ∀ p ∈ (difference img1 img2).pixels, p.1 < 256 ∧ p.2.1 < 256 ∧ p.2.2 < 256 := by
  intro p hp
  obtain ⟨a, b, ha, hb, rfl⟩ := of_mem_zipWith hp
  have hha := h1 a ha
  have hhb := h2 b hb
  refine ⟨?_, ?_, ?_⟩ <;> simp only [absDiff] <;> omega

/-- Inside the bin range `1..255`, the histogram reads the first band. -/
lemma histogram_eq_red_filter (img : PILImage) (i : Nat) (hi : i ∈ List.range' 1 255) :
    histogram img i = (img.pixels.filter (fun p => p.1 == i)).length := by
  rw [List.mem_range'_1] at hi
  unfold histogram
  rw [if_pos (by omega)]

/-- The quantity `images_different` sums is the number of pixels whose
first (red) channel differs, provided the image is byte-valued. -/
lemma nonZeroCount_eq_red (img : PILImage)
    (h : ∀ p ∈ img.pixels, p.1 < 256 ∧ p.2.1 < 256 ∧ p.2.2 < 256) :
    nonZeroCount img = redNonZeroCount img := by
  unfold nonZeroCount redNonZeroCount
  rw [List.map_congr_left (fun i hi => histogram_eq_red_filter img i hi)]
  exact sum_bins_eq_count_ne_zero _ _ (fun a haa => (h a haa).1)

/-- `absDiff` of equal values vanishes. -/
lemma absDiff_self (a : Nat) : absDiff a a = 0 := by simp [absDiff]

/-- An image never differs from itself. -/
lemma images_different_self (I : PILImage) : images_different I I = false := by
  have hpix : ∀ p ∈ (difference I I).pixels, p.1 = 0 := by
    intro p hp
    simp only [difference, List.zipWith_same] at hp
    obtain ⟨q, _, rfl⟩ := List.mem_map.mp hp
    exact absDiff_self _
  have hz : nonZeroCount (difference I I) = 0 := by
    unfold nonZeroCount
    have hmap : (List.range' 1 255).map (fun i => histogram (difference I I) i)
        = (List.range' 1 255).map (fun _ => 0) := by
      apply List.map_congr_left
      intro i hi
      rw [histogram_eq_red_filter _ _ hi]
      rw [List.mem_range'_1] at hi
      have hnil : (difference I I).pixels.filter (fun p => p.1 == i) = [] := by
        apply List.filter_eq_nil_iff.mpr
        intro p hp
        rw [hpix p hp]
        simp only [beq_iff_eq]
        omega
      rw [hnil]
      rfl
    rw [hmap]
    simp only [List.map_const', List.sum_replicate, smul_zero]
  unfold images_different
  rw [if_neg (by simp)]
  show decide ((((nonZeroCount (difference I I) : ℚ)) /
      ((I.width : ℚ) * (I.height : ℚ) * 3)) * 100 > DIFF_THRESHOLD) = false
  rw [hz]
  norm_num [DIFF_THRESHOLD]

/-- When no pixel differs in the first channel, `images_different` on
equal dimensions reports no change. -/
lemma images_different_false_of_red_zero (img1 img2 : PILImage)
    (hw : img1.width = img2.width) (hh : img1.height = img2.height)
    (hz : nonZeroCount (difference img1 img2) = 0) :
    images_different img1 img2 = false := by
  unfold images_different
  rw [if_neg (not_or.mpr ⟨not_not_intro hw, not_not_intro hh⟩)]
  show decide (((nonZeroCount (difference img1 img2) : ℚ)
      / ((img1.width : ℚ) * (img1.height : ℚ) * 3)) * 100 > DIFF_THRESHOLD) = false
  rw [hz]
  norm_num [DIFF_THRESHOLD]

/-!
## Helper lemmas: persistence and the polling loop
-/

/-- `save_image` always bumps the counter by exactly one. -/
lemma save_image_count (f c : Bool) (img : PILImage) (s : AppState) :
    (save_image f c img s).1.capture_count = s.capture_count + 1 := by
  unfold save_image
  dsimp only
  split <;> rfl

/-- `save_image` touches only the counter and the status string. -/
lemma save_image_preserves (f c : Bool) (img : PILImage) (s : AppState) :
    (save_image f c img s).1.capture_mode = s.capture_mode ∧
    (save_image f c img s).1.target_window_id = s.target_window_id ∧
    (save_image f c img s).1.region = s.region ∧
    (save_image f c img s).1.save_mode = s.save_mode ∧
    (save_image f c img s).1.is_running = s.is_running ∧
    (save_image f c img s).1.mode = s.mode ∧
    (save_image f c img s).1.last_image = s.last_image ∧
    (save_image f c img s).1.change_detected_time = s.change_detected_time ∧
    (save_image f c img s).1.settling_time = s.settling_time := by
  unfold save_image
  dsimp only
  split <;> exact ⟨rfl, rfl, rfl, rfl, rfl, rfl, rfl, rfl, rfl⟩

/-- With a live target, `do_capture` returns whatever the backend does. -/
lemma do_capture_of_targetLive (o : Option PILImage) (s : AppState)
    (h : targetLive s) : do_capture o s = o := by
  rcases h with ⟨h1, h2⟩ | ⟨h1, h2⟩ <;> simp [do_capture, h1, h2]

/-- `targetLive` only reads the capture mode, the window id and the
region, so it transfers along states agreeing there. -/
lemma targetLive_of_fields {s s' : AppState} (hcm : s'.capture_mode = s.capture_mode)
    (hid : s'.target_window_id = s.target_window_id) (hr : s'.region = s.region)
    (h : targetLive s) : targetLive s' := by
  unfold targetLive windowTargetSet regionSet at h ⊢
  rw [hcm, hid, hr]
  exact h

/-- A stable iteration with no pending change timestamp only refreshes
the stored frame. -/
lemma monitorStep_stable_none (f c : Bool) (now : ℚ) (s : AppState) (I : PILImage)
    (hlive : targetLive s) (hlast : s.last_image = some I)
    (hct : s.change_detected_time = none) :
    monitorStep f c now (some I) s = ({ s with last_image := some I }, false) := by
  unfold monitorStep
  simp only [do_capture_of_targetLive _ _ hlive, hlast, images_different_self,
    Bool.false_eq_true, if_false, hct]

/-- A stable iteration whose pending change is too recent (or whose
timestamp is the falsy `0.0`) keeps waiting. -/
lemma monitorStep_stable_wait (f c : Bool) (now : ℚ) (s : AppState) (I : PILImage)
    (t : ℚ) (hlive : targetLive s) (hlast : s.last_image = some I)
    (hct : s.change_detected_time = some t)
    (h : ¬(t ≠ 0 ∧ now - t ≥ s.settling_time)) :
    monitorStep f c now (some I) s = ({ s with last_image := some I }, false) := by
  unfold monitorStep
  simp only [do_capture_of_targetLive _ _ hlive, hlast, images_different_self,
    Bool.false_eq_true, if_false, hct]
  rw [if_neg h]

/-- A stable iteration whose pending change has settled saves once and
clears the pending timestamp. -/
lemma monitorStep_stable_save (f c : Bool) (now : ℚ) (s : AppState) (I : PILImage)
    (t : ℚ) (hlive : targetLive s) (hlast : s.last_image = some I)
    (hct : s.change_detected_time = some t)
    (ht : t ≠ 0) (helap : now - t ≥ s.settling_time) :
    monitorStep f c now (some I) s =
      ({ (save_image f c I s).1 with
          last_image := some I,
          change_detected_time := none }, true) := by
  unfold monitorStep
  simp only [do_capture_of_targetLive _ _ hlive, hlast, images_different_self,
    Bool.false_eq_true, if_false, hct]
  rw [if_pos ⟨ht, helap⟩]

/-- A changed iteration records the change timestamp and never saves. -/
lemma monitorStep_change (f c : Bool) (now : ℚ) (o : Option PILImage)
    (s : AppState) (L cur : PILImage) (hlast : s.last_image = some L)
    (hdc : do_capture o s = some cur)
    (hdiff : images_different L cur = true) :
    monitorStep f c now o s =
      ({ s with last_image := some cur
                change_detected_time := some now
                status := "🔍 変化検知..." }, false) := by
  unfold monitorStep
  simp only [hdc, hlast, hdiff, if_true]

/-- Over any run of stable frames with no pending change timestamp, the
loop never saves. -/
lemma monitorRun_stable_none (f c : Bool) (ts : List ℚ) (s : AppState) (I : PILImage)
    (hrun : s.is_running = true) (hmode : s.mode = "auto") (hlive : targetLive s)
    (hlast : s.last_image = some I) (hct : s.change_detected_time = none) :
    (monitorRun f c (ts.map (fun t => (t, some I))) s).2 = 0 := by
  induction ts generalizing s with
  | nil => rfl
  | cons t ts ih =>
    rw [List.map_cons]
    unfold monitorRun
    rw [if_pos (by rw [hrun, hmode]; rfl)]
    rw [monitorStep_stable_none f c t s I hlive hlast hct]
    simp only [Bool.false_eq_true, if_false, Nat.zero_add]
    exact ih { s with last_image := some I } hrun hmode
      (targetLive_of_fields rfl rfl rfl hlive) rfl hct

/-- Over a run of stable frames with a pending (truthy) change timestamp
`t0`, the loop saves exactly once when some iteration happens at least
`settling_time` after `t0`, and never otherwise. -/
lemma monitorRun_stable_some (f c : Bool) (ts : List ℚ) (s : AppState) (I : PILImage)
    (t0 : ℚ) (hrun : s.is_running = true) (hmode : s.mode = "auto")
    (hlive : targetLive s) (hlast : s.last_image = some I)
    (hct : s.change_detected_time = some t0) (ht0 : t0 ≠ 0) :
    (monitorRun f c (ts.map (fun t => (t, some I))) s).2
      = if ts.any (fun t => decide (s.settling_time ≤ t - t0)) then 1 else 0 := by
  induction ts generalizing s with
  | nil => rfl
  | cons t ts ih =>
    rw [List.map_cons]
    unfold monitorRun
    rw [if_pos (by rw [hrun, hmode]; rfl)]
    by_cases hsave : s.settling_time ≤ t - t0
    · rw [monitorStep_stable_save f c t s I t0 hlive hlast hct ht0 hsave]
      simp only [if_true]
      have hpres := save_image_preserves f c I s
      have hrest : (monitorRun f c (ts.map (fun u => (u, some I)))
          { (save_image f c I s).1 with
              last_image := some I,
              change_detected_time := none }).2 = 0 := by
        apply monitorRun_stable_none f c ts _ I
        · show (save_image f c I s).1.is_running = true
          rw [hpres.2.2.2.2.1, hrun]
        · show (save_image f c I s).1.mode = "auto"
          rw [hpres.2.2.2.2.2.1, hmode]
        · exact targetLive_of_fields hpres.1 hpres.2.1 hpres.2.2.1 hlive
        · rfl
        · rfl
      rw [hrest]
      have hany : (t :: ts).any (fun u => decide (s.settling_time ≤ u - t0)) = true := by
        rw [List.any_cons]
        rw [decide_eq_true hsave]
        rfl
      rw [hany]
      rfl
    · rw [monitorStep_stable_wait f c t s I t0 hlive hlast hct
          (by intro hcon; exact hsave hcon.2)]
      simp only [Bool.false_eq_true, if_false, Nat.zero_add]
      have hih := ih { s with last_image := some I } hrun hmode
        (targetLive_of_fields rfl rfl rfl hlive) rfl hct
      rw [hih]
      rw [List.any_cons]
      rw [decide_eq_false hsave]
      rfl

/-!
## Helper lemmas: counter seeding
-/

/-- The seeding fold never drops below its accumulator. -/
lemma foldl_seedStep_le_acc (l : List String) (acc : Int) :
    acc ≤ l.foldl seedStep acc := by
  induction l generalizing acc with
  | nil => exact le_refl _
  | cons x l ih =>
    refine le_trans ?_ (ih (seedStep acc x))
    unfold seedStep
    cases slideNumberOf x
    · exact le_refl _
    · exact le_max_left _ _

/-- The seeding fold dominates every parsed sequence number in the list. -/
lemma foldl_seedStep_ge_mem (l : List String) (acc : Int) (name : String) (n : Int)
    (hmem : name ∈ l) (hn : slideNumberOf name = some n) :
    n ≤ l.foldl seedStep acc := by
  induction l generalizing acc with
  | nil => cases hmem
  | cons x l ih =>
    rcases List.mem_cons.mp hmem with rfl | hmem'
    · rw [List.foldl_cons]
      refine le_trans ?_ (foldl_seedStep_le_acc l _)
      unfold seedStep
      rw [hn]
      exact le_max_right _ _
    · rw [List.foldl_cons]
      exact ih _ hmem'

/-- A fold over names none of which parses stays put. -/
lemma foldl_seedStep_of_no_parse (l : List String) (acc : Int)
    (h : ∀ name ∈ l, slideNumberOf name = none) :
    l.foldl seedStep acc = acc := by
  induction l generalizing acc with
  | nil => rfl
  | cons x l ih =>
    rw [List.foldl_cons]
    have hx : seedStep acc x = acc := by
      unfold seedStep
      rw [h x (List.mem_cons_self _ _)]
    rw [hx]
    exact ih _ (fun name hname => h name (List.mem_cons_of_mem _ hname))

/-- `init_capture_count` is the seeding fold (directory present). -/
lemma init_capture_count_eq_foldl (files : List String) (s : AppState) :
    (init_capture_count true files s).capture_count
      = (files.filter matchesSlide).foldl seedStep 0 := by
  unfold init_capture_count seedStep
  rfl

/-- A successful `do_capture` implies the target of the current mode is
configured. -/
lemma do_capture_some_targetLive {o : Option PILImage} {s : AppState}
    {img : PILImage} (h : do_capture o s = some img) : targetLive s := by
  unfold do_capture at h
  by_cases h1 : (s.capture_mode == "window" && windowTargetSet s) = true
  · simp only [Bool.and_eq_true, beq_iff_eq] at h1
    exact Or.inl h1
  · rw [if_neg h1] at h
    by_cases h2 : (s.capture_mode == "region" && regionSet s) = true
    · simp only [Bool.and_eq_true, beq_iff_eq] at h2
      exact Or.inr h2
    · rw [if_neg h2] at h
      cases h

/-- With a live target, both target-missing guards of `manual_capture`
are false. -/
lemma guards_false_of_targetLive {s : AppState} (h : targetLive s) :
    (s.capture_mode == "window" && !windowTargetSet s) = false ∧
    (s.capture_mode == "region" && !regionSet s) = false := by
  rcases h with ⟨h1, h2⟩ | ⟨h1, h2⟩
  · exact ⟨by simp [h1, h2], by simp [h1]⟩
  · exact ⟨by simp [h1], by simp [h1, h2]⟩

/-!
## Claim theorems
-/

set_option maxRecDepth 8192 in
/-- C1, counterexample: two well-formed 1×1 frames of equal dimensions
that differ only in the green channel. The spec's percentage (non-zero
difference samples across all three channels over `w*h*3`) is 100/3,
far above 0.5, yet `images_different` returns `false`, because the
source sums only histogram bins 1..255 — the first (red) band of the
768-bin RGB histogram. -/
theorem images_different_misses_green_change :
    greenOnly1.width = greenOnly2.width ∧ greenOnly1.height = greenOnly2.height ∧
    WellFormed greenOnly1 ∧ WellFormed greenOnly2 ∧
    ((specNonZeroSamples (difference greenOnly1 greenOnly2) : ℚ)
        / ((greenOnly1.width : ℚ) * (greenOnly1.height : ℚ) * 3)) * 100 > 0.5 ∧
    images_different greenOnly1 greenOnly2 = false := by
  refine ⟨rfl, rfl, by decide, by decide, ?_, ?_⟩
  · rw [show specNonZeroSamples (difference greenOnly1 greenOnly2) = 1 from by decide]
    norm_num [greenOnly1]
  · exact images_different_false_of_red_zero _ _ rfl rfl (by decide)

/-- C1, amended: for well-formed frames of equal dimensions,
`images_different` returns `true` iff the percentage of pixels whose
FIRST (red) channel difference is non-zero, over `width*height*3`
samples, strictly exceeds 0.5; at a percentage of exactly 0.5 it
returns `false`; and frames of different dimensions always count as
changed. -/
theorem images_different_red_channel_characterization (img1 img2 : PILImage)
    (h1 : WellFormed img1) (h2 : WellFormed img2) :
    ((img1.width = img2.width ∧ img1.height = img2.height) →
        ((images_different img1 img2 = true) ↔
          ((redNonZeroCount (difference img1 img2) : ℚ)
              / ((img1.width : ℚ) * (img1.height : ℚ) * 3)) * 100 > 0.5)) ∧
    ((img1.width = img2.width ∧ img1.height = img2.height) →
        ((redNonZeroCount (difference img1 img2) : ℚ)
            / ((img1.width : ℚ) * (img1.height : ℚ) * 3)) * 100 = 0.5 →
        images_different img1 img2 = false) ∧
    ((img1.width ≠ img2.width ∨ img1.height ≠ img2.height) →
        images_different img1 img2 = true) := by
  have hred : nonZeroCount (difference img1 img2)
      = redNonZeroCount (difference img1 img2) :=
    nonZeroCount_eq_red _ (difference_channels_lt _ _ h1.2.1 h2.2.1)
  refine ⟨?_, ?_, ?_⟩
  · intro hdim
    unfold images_different
    rw [if_neg (not_or.mpr ⟨not_not_intro hdim.1, not_not_intro hdim.2⟩)]
    show decide (((nonZeroCount (difference img1 img2) : ℚ)
        / ((img1.width : ℚ) * (img1.height : ℚ) * 3)) * 100 > DIFF_THRESHOLD)
        = true ↔ _
    rw [hred, decide_eq_true_eq]
    exact Iff.rfl
  · intro hdim heq
    unfold images_different
    rw [if_neg (not_or.mpr ⟨not_not_intro hdim.1, not_not_intro hdim.2⟩)]
    show decide (((nonZeroCount (difference img1 img2) : ℚ)
        / ((img1.width : ℚ) * (img1.height : ℚ) * 3)) * 100 > DIFF_THRESHOLD)
        = false
    rw [hred, heq]
    exact decide_eq_false (lt_irrefl _)
  · intro hne
    unfold images_different
    rw [if_pos hne]

/-- C1 witness: the amended characterization applied to a concrete pair
of well-formed 1×1 frames whose red channels differ. -/
theorem images_different_red_channel_witness :
    WellFormed tinyImage ∧ WellFormed greenOnly1 ∧
    ((tinyImage.width = greenOnly1.width ∧ tinyImage.height = greenOnly1.height) →
        ((images_different tinyImage greenOnly1 = true) ↔
          ((redNonZeroCount (difference tinyImage greenOnly1) : ℚ)
              / ((tinyImage.width : ℚ) * (tinyImage.height : ℚ) * 3)) * 100 > 0.5)) :=
  ⟨by decide, by decide,
   (images_different_red_channel_characterization tinyImage greenOnly1
      (by decide) (by decide)).1⟩

/-- C8: every `save_image` call bumps the counter by exactly one before
any write is attempted, and the filename carries the incremented value
(`slide_{count+1:04d}.png`); since the increment precedes the writes, a
failed folder or clipboard write still consumes the number. -/
theorem save_image_increments_counter_first (f c : Bool) (img : PILImage)
    (s : AppState) :
    (save_image f c img s).1.capture_count = s.capture_count + 1 ∧
    (save_image f c img s).2.filename
      = "slide_" ++ pad4 (s.capture_count + 1) ++ ".png" := by
  unfold save_image
  dsimp only
  split
  · exact ⟨rfl, rfl⟩
  · exact ⟨rfl, rfl⟩

/-- C6: starting with an absent target (window mode with no window id,
or region mode with no rectangle) fails, sets only an explanatory
status, and leaves every other field — in particular the running flag —
untouched. -/
theorem start_capture_without_target_fails (s : AppState)
    (h : (s.capture_mode = "window" ∧ windowTargetSet s = false) ∨
         (s.capture_mode = "region" ∧ regionSet s = false)) :
    start_capture s = .ok { s with status :=
        if s.capture_mode = "window" then "❌ ウィンドウを選択してください"
        else "❌ 領域を選択してください" } false := by
  rcases h with ⟨h1, h2⟩ | ⟨h1, h2⟩
  · unfold start_capture
    rw [if_pos (by rw [h1, h2]; rfl)]
    rw [if_pos h1]
  · unfold start_capture
    have hwr : ("region" == "window") = false := by decide
    rw [if_neg (by rw [h1, hwr]; simp)]
    rw [if_pos (by rw [h1, h2]; rfl)]
    rw [if_neg (by rw [h1]; decide)]

/-- C6 witness: starting the default session (window mode, no window
selected) fails with the explanatory status and no other change. -/
theorem start_capture_without_target_witness :
    start_capture initialState
      = .ok { initialState with status := "❌ ウィンドウを選択してください" } false :=
  start_capture_without_target_fails initialState (Or.inl ⟨rfl, rfl⟩)


/-- C3, counterexample: with the session running, the interactive
region-selection endpoint (which has no running-flag guard in the
source) still overwrites the capture mode and the region on a
successful selection, so the prior capture mode is not retained. -/
theorem select_region_mutates_state_while_running :
    runningState.is_running = true ∧
    runningState.capture_mode = "window" ∧ runningState.region = none ∧
    (interactive_select_region true 200 100 [] runningState).1.capture_mode
      = "region" ∧
    (interactive_select_region true 200 100 [] runningState).1.region
      = some (100, 100, 100, 50) := by
  refine ⟨rfl, rfl, rfl, rfl, rfl⟩

/-- C3, amended: the three mode-setting endpoints (`/api/capture_mode`,
`/api/mode`, `/api/save_mode`) are no-ops whenever the running flag is
true, retaining the prior values; the interactive region selection,
however, is not guarded: whenever the external selection succeeds it
sets the capture mode to `region` (and stores a rectangle), running or
not. -/
theorem mode_setters_reject_while_running (s : AppState) (m : String)
    (h : s.is_running = true) :
    api_capture_mode m s = s ∧ api_mode m s = s ∧ api_save_mode m s = s ∧
    (∀ (capW capH : Nat) (pos : List (Int × Int)),
        (interactive_select_region true capW capH pos s).1.capture_mode
          = "region") := by
  refine ⟨?_, ?_, ?_, fun capW capH pos => rfl⟩
  · unfold api_capture_mode
    rw [h]
    rfl
  · unfold api_mode
    rw [h]
    rfl
  · unfold api_save_mode
    rw [h]
    rfl

/-- C3 witness: the amended statement at a concrete running session. -/
theorem mode_setters_reject_witness :
    api_capture_mode "auto" runningState = runningState ∧
    api_mode "auto" runningState = runningState ∧
    api_save_mode "auto" runningState = runningState ∧
    (∀ (capW capH : Nat) (pos : List (Int × Int)),
        (interactive_select_region true capW capH pos runningState).1.capture_mode
          = "region") :=
  mode_setters_reject_while_running runningState "auto" rfl

/-- C4, counterexample: from a running auto-mode session with a live
window target, `manual_capture` does not fail: it captures, persists
and advances the counter, because the source checks only the running
flag and the target, never the scheduler mode. -/
theorem manual_capture_succeeds_in_auto_mode :
    autoRunningState.is_running = true ∧ autoRunningState.mode = "auto" ∧
    (manual_capture (some tinyImage) true true autoRunningState).2 = true ∧
    (manual_capture (some tinyImage) true true autoRunningState).1.capture_count
      = autoRunningState.capture_count + 1 := by
  refine ⟨rfl, rfl, rfl, rfl⟩

/-- C4, amended: `manual_capture` fails (status only, nothing persisted)
when the session is not running or the current mode's target is missing,
and succeeds from ANY running state whose capture yields an image —
the scheduler mode is not consulted — persisting exactly once via
`save_image` and never invoking the change detector. -/
theorem manual_capture_characterization (o : Option PILImage) (f c : Bool)
    (s : AppState) :
    (s.is_running = false →
        manual_capture o f c s = ({ s with status := "❌ 開始してください" }, false)) ∧
    (s.is_running = true → s.capture_mode = "window" → windowTargetSet s = false →
        manual_capture o f c s = ({ s with status := "❌ ウィンドウ未選択" }, false)) ∧
    (s.is_running = true → s.capture_mode = "region" → regionSet s = false →
        manual_capture o f c s = ({ s with status := "❌ 領域未設定" }, false)) ∧
    (s.is_running = true → ∀ img, do_capture o s = some img →
        manual_capture o f c s = ((save_image f c img s).1, true)) := by
  refine ⟨?_, ?_, ?_, ?_⟩
  · intro h
    unfold manual_capture
    rw [h]
    rfl
  · intro hrun hcm hws
    unfold manual_capture
    rw [hrun]
    simp only [Bool.not_true, Bool.false_eq_true, if_false]
    rw [if_pos (by rw [hcm, hws]; rfl)]
  · intro hrun hcm hrs
    unfold manual_capture
    rw [hrun]
    simp only [Bool.not_true, Bool.false_eq_true, if_false]
    have hwr : (s.capture_mode == "window") = false := by
      rw [hcm]; decide
    rw [if_neg (by rw [hwr]; simp)]
    rw [if_pos (by rw [hcm, hrs]; rfl)]
  · intro hrun img hdc
    have hg := guards_false_of_targetLive (do_capture_some_targetLive hdc)
    unfold manual_capture
    rw [hrun]
    simp only [Bool.not_true, Bool.false_eq_true, if_false]
    rw [if_neg (by rw [hg.1]; simp), if_neg (by rw [hg.2]; simp), hdc]

/-- C4 witness: the amended statement's success branch at the concrete
armed session: the call persists once via `save_image`. -/
theorem manual_capture_characterization_witness :
    manual_capture (some tinyImage) true true armedState
      = ((save_image true true tinyImage armedState).1, true) :=
  (manual_capture_characterization (some tinyImage) true true armedState).2.2.2
    rfl tinyImage rfl

/-- C10: when the running and target guards pass but the capture source
returns no image, `manual_capture` returns false and mutates only the
status string — the counter, the stored last frame and the running flag
are all unchanged. -/
theorem manual_capture_failure_mutates_only_status (o : Option PILImage)
    (f c : Bool) (s : AppState) (hrun : s.is_running = true)
    (hlive : targetLive s) (hdc : do_capture o s = none) :
    manual_capture o f c s = ({ s with status := "❌ キャプチャ失敗" }, false) := by
  have hg := guards_false_of_targetLive hlive
  unfold manual_capture
  rw [hrun]
  simp only [Bool.not_true, Bool.false_eq_true, if_false]
  rw [if_neg (by rw [hg.1]; simp), if_neg (by rw [hg.2]; simp), hdc]

/-- C10 witness: a backend failure (no image) in the armed session only
rewrites the status. -/
theorem manual_capture_failure_witness :
    manual_capture none true true armedState
      = ({ armedState with status := "❌ キャプチャ失敗" }, false) :=
  manual_capture_failure_mutates_only_status none true true armedState
    rfl (by decide) rfl

/-- C9: the code at the claim's failing input (two manual triggers with
no intervening completion). Each trigger unconditionally spawns a
`manual_capture` thread with no coalescing, rejection, or in-flight
bound, so both captures execute even under the most favourable
serialized interleaving: the second call also succeeds and the counter
advances by 2, not 1. -/
theorem double_manual_trigger_both_execute :
    (manual_capture (some tinyImage) true true armedState).2 = true ∧
    (manual_capture (some tinyImage) true true
        (manual_capture (some tinyImage) true true armedState).1).2 = true ∧
    (manual_capture (some tinyImage) true true
        (manual_capture (some tinyImage) true true armedState).1).1.capture_count
      = armedState.capture_count + 2 := by
  refine ⟨rfl, rfl, rfl⟩


/-- C5, counterexample: the reset endpoint also changes the counter, and
it is not an increase — from a session that has persisted five captures
it drops the counter back to 0 — so the counter is not strictly
increasing under every operation that changes it. -/
theorem api_reset_decreases_counter :
    countFiveState.capture_count = 5 ∧
    (api_reset countFiveState).capture_count = 0 ∧
    ¬ countFiveState.capture_count < (api_reset countFiveState).capture_count := by
  refine ⟨rfl, rfl, by decide⟩

/-- C5, amended: `save_image` strictly increases the counter; at startup
`init_capture_count` seeds it to at least every sequence number parsed
from a `slide_*.png` entry of the save directory (0 when the directory
is absent or nothing parses), so the first file persisted afterwards
carries a number strictly above every existing one. The `/api/reset`
endpoint, however, sets the counter to 0, which is a decrease on any
session that has already captured. -/
theorem counter_seeding_and_save_monotonicity (files : List String)
    (s : AppState) (f c : Bool) (img : PILImage) :
    (∀ name ∈ files, matchesSlide name = true → ∀ n, slideNumberOf name = some n →
        n ≤ (init_capture_count true files s).capture_count ∧
        n < (save_image f c img (init_capture_count true files s)).1.capture_count) ∧
    ((init_capture_count false files s).capture_count = 0) ∧
    ((∀ name ∈ files, slideNumberOf name = none) →
        (init_capture_count true files s).capture_count = 0) ∧
    (∀ s' : AppState, s'.capture_count < (save_image f c img s').1.capture_count) := by
  refine ⟨?_, rfl, ?_, ?_⟩
  · intro name hmem hmatch n hn
    have hseed : n ≤ (init_capture_count true files s).capture_count := by
      rw [init_capture_count_eq_foldl]
      exact foldl_seedStep_ge_mem _ 0 name n
        (List.mem_filter.mpr ⟨hmem, hmatch⟩) hn
    refine ⟨hseed, ?_⟩
    rw [save_image_count]
    omega
  · intro h
    rw [init_capture_count_eq_foldl]
    exact foldl_seedStep_of_no_parse _ 0
      (fun name hname => h name (List.mem_filter.mp hname).1)
  · intro s'
    rw [save_image_count]
    omega

/-- C5 witness: seeding from a directory holding `slide_0007.png` puts
the counter at 7 or above, and the next persisted file gets a strictly
larger number. -/
theorem counter_seeding_witness :
    (7 : Int) ≤ (init_capture_count true demoFiles initialState).capture_count ∧
    (7 : Int) < (save_image true true tinyImage
        (init_capture_count true demoFiles initialState)).1.capture_count :=
  (counter_seeding_and_save_monotonicity demoFiles initialState true true
      tinyImage).1 "slide_0007.png" (by decide) (by decide) 7 (by decide)

/-- C7, counterexample: in `both` mode a folder-write failure (an
exception from `image.save`) propagates to the surrounding handler and
the clipboard write is never attempted — the two channels are not
independent in that direction. -/
theorem folder_failure_skips_clipboard :
    bothModeState.save_mode = "both" ∧
    (save_image false true tinyImage bothModeState).2.folderAttempted = true ∧
    (save_image false true tinyImage bothModeState).2.folderWritten = false ∧
    (save_image false true tinyImage bothModeState).2.clipboardAttempted = false ∧
    (save_image false true tinyImage bothModeState).1.capture_count
      = bothModeState.capture_count + 1 := by
  refine ⟨rfl, rfl, rfl, rfl, rfl⟩

/-- C7, amended: in `both` mode the counter advances on every persist
call regardless of either outcome; when the folder write succeeds the
clipboard write is attempted independently, its failure is reported in the
status (partial success, not fatal) while the folder result stands; but
when the folder write raises, the clipboard write is skipped and the
status is left untouched. -/
theorem save_mode_both_characterization (c : Bool) (img : PILImage)
    (s : AppState) (h : s.save_mode = "both") :
    ((save_image true c img s).2.folderWritten = true ∧
     (save_image true c img s).2.clipboardAttempted = true ∧
     (save_image true c img s).2.clipboardWritten = c ∧
     (save_image true c img s).1.status
        = "✓ 📁 " ++ (save_image true c img s).2.filename ++ " / "
          ++ (if c then "📋 コピー済" else "❌ コピー失敗")) ∧
    ((save_image false c img s).2.clipboardAttempted = false ∧
     (save_image false c img s).1.status = s.status) ∧
    (∀ f : Bool, (save_image f c img s).1.capture_count = s.capture_count + 1) := by
  refine ⟨?_, ?_, fun f => save_image_count f c img s⟩
  · unfold save_image
    simp only [h]
    cases c
    · exact ⟨rfl, rfl, rfl, rfl⟩
    · exact ⟨rfl, rfl, rfl, rfl⟩
  · unfold save_image
    simp only [h]
    exact ⟨rfl, rfl⟩

/-- C7 witness: the amended statement at the concrete `both`-mode
session. -/
theorem save_mode_both_witness :
    ((save_image true false tinyImage bothModeState).2.folderWritten = true ∧
     (save_image true false tinyImage bothModeState).2.clipboardAttempted = true ∧
     (save_image true false tinyImage bothModeState).2.clipboardWritten = false ∧
     (save_image true false tinyImage bothModeState).1.status
        = "✓ 📁 " ++ (save_image true false tinyImage bothModeState).2.filename
          ++ " / " ++ (if false then "📋 コピー済" else "❌ コピー失敗")) ∧
    ((save_image false false tinyImage bothModeState).2.clipboardAttempted = false ∧
     (save_image false false tinyImage bothModeState).1.status
        = bothModeState.status) ∧
    (∀ f : Bool, (save_image f false tinyImage bothModeState).1.capture_count
        = bothModeState.capture_count + 1) :=
  save_mode_both_characterization false tinyImage bothModeState rfl

/-- C2: in the auto-mode polling loop, over any run of stable iterations
(each capture returning the stored frame again) starting from a pending
(truthy) change timestamp `t0`, exactly one save is performed iff some
iteration happens at least `settling_time` after `t0` — the first such
iteration saves and clears the pending timestamp, and no further save
happens for the rest of the stable run — and zero saves otherwise; by
instantiating `ts` with any prefix, no save happens before the first
qualifying iteration. Moreover, an iteration that detects a change never
saves: it only refreshes the change timestamp. -/
theorem auto_mode_one_save_per_stable_interval (f c : Bool) (s : AppState)
    (I : PILImage) (t0 : ℚ) (ts : List ℚ)
    (hrun : s.is_running = true) (hmode : s.mode = "auto") (hlive : targetLive s)
    (hlast : s.last_image = some I) (hct : s.change_detected_time = some t0)
    (ht0 : t0 ≠ 0) :
    ((monitorRun f c (ts.map (fun t => (t, some I))) s).2
        = if ts.any (fun t => decide (s.settling_time ≤ t - t0)) then 1 else 0) ∧
    (∀ (s' : AppState) (now : ℚ) (o : Option PILImage) (L cur : PILImage),
        s'.last_image = some L → do_capture o s' = some cur →
        images_different L cur = true →
        (monitorStep f c now o s').2 = false ∧
        (monitorStep f c now o s').1.change_detected_time = some now) := by
  refine ⟨monitorRun_stable_some f c ts s I t0 hrun hmode hlive hlast hct ht0, ?_⟩
  intro s' now o L cur hlast' hdc hdiff
  rw [monitorStep_change f c now o s' L cur hlast' hdc hdiff]
  exact ⟨rfl, rfl⟩

/-- C2 witness: the loop theorem applied to the concrete polling session
with a change pending at time 1, over iterations at times 1.1 and 2. -/
theorem auto_mode_one_save_witness :
    ((monitorRun true true ([1.1, 2].map (fun t => (t, some tinyImage)))
          autoLoopState).2
        = if [1.1, 2].any
            (fun t => decide (autoLoopState.settling_time ≤ t - 1)) then 1 else 0) ∧
    (∀ (s' : AppState) (now : ℚ) (o : Option PILImage) (L cur : PILImage),
        s'.last_image = some L → do_capture o s' = some cur →
        images_different L cur = true →
        (monitorStep true true now o s').2 = false ∧
        (monitorStep true true now o s').1.change_detected_time = some now) :=
  auto_mode_one_save_per_stable_interval true true autoLoopState tinyImage 1
    [1.1, 2] rfl rfl (by decide) rfl rfl one_ne_zero

end ScreenshotApp
